import Mathlib

/-!
Verification development for the copacetic MCP server's patch-orchestration
core: the platform capability table, the patch command builders (both the
legacy `copa.Run` argument builder and the `CLI` builder), the execution
wrapper, the VEX result parser, and the trivy scan orchestrator.

Each definition is a shallow embedding of the corresponding Go function;
filesystem reads, subprocess execution, the wall clock and registry
authentication are passed in as explicit parameters so the control flow
stays exactly that of the source.
-/

namespace GoStrings

/-- Character-level model of Go `strings.Split(s, sep)` for a one-character
separator: split at every occurrence, keeping empty segments. -/
def splitOnCharList (sep : Char) : List Char → List (List Char)
  | [] => [[]]
  | c :: rest =>
    match splitOnCharList sep rest with
    | [] => if c = sep then [[], []] else [[c]]
    | h :: t => if c = sep then [] :: h :: t else (c :: h) :: t

/-- Model of Go `strings.Split(s, sep)` for a one-character separator. -/
def split (s : String) (sep : Char) : List String :=
  (splitOnCharList sep s.data).map (fun l => ⟨l⟩)

/-- Model of Go `strings.Join(elems, ",")`. -/
def joinComma : List String → String
  | [] => ""
  | [x] => x
  | x :: y :: rest => x ++ "," ++ joinComma (y :: rest)

/-- Model of Go `strings.ReplaceAll(s, "/", "-")` (one-character pattern and
replacement, so it is a character map). -/
def replaceSlashDash (s : String) : String :=
  ⟨s.data.map (fun c => if c = '/' then '-' else c)⟩

/-- Model of Go `strings.TrimPrefix(s, pre)`: drop `pre` when it is a prefix,
otherwise return `s` unchanged. -/
def trimPrefix (s pre : String) : String :=
  if pre.data.isPrefixOf s.data then ⟨s.data.drop pre.data.length⟩ else s

/-- Model of Go `strings.Contains(s, sub)` for a one-character `sub`. -/
def containsChar (s : String) (c : Char) : Bool :=
  s.data.contains c

end GoStrings

namespace Copa

/-- Embedding of `CopaSupportedPlatforms` (internal/copa/cli.go and
internal/util/multiplatform.go, which hold the identical table). -/
def CopaSupportedPlatforms : List String :=
  ["linux/amd64",
   "linux/arm64",
   "linux/arm/v7",
   "linux/arm/v6",
   "linux/386",
   "linux/ppc64le",
   "linux/s390x",
   "linux/riscv64"]

/-- Embedding of `IsPlatformSupported` (identical in internal/copa/cli.go and
internal/util/multiplatform.go): a linear scan over the table that returns
true on exact match, plus the special clause treating `linux/arm64/v8` as
equivalent to bare `linux/arm64`. -/
def IsPlatformSupported (platform : String) : Bool :=
  CopaSupportedPlatforms.any (fun supported =>
    platform == supported ||
      (supported == "linux/arm64" &&
        (platform == "linux/arm64/v8" || platform == "linux/arm64")))

/-- Embedding of `FilterSupportedPlatforms`: keep, in order, the platforms
`IsPlatformSupported` accepts. -/
def FilterSupportedPlatforms (platforms : List String) : List String :=
  platforms.filter IsPlatformSupported

/-- Embedding of `PlatformToArch` (internal/util/multiplatform.go): second
slash-delimited segment, hyphen-joined with the third when present. -/
def PlatformToArch (platform : String) : String :=
  let parts := GoStrings.split platform '/'
  if parts.length < 2 then platform
  else
    let arch := parts.getD 1 ""
    if parts.length > 2 then arch ++ "-" ++ parts.getD 2 "" else arch

/-- The `patchedSuffix` constant of internal/copa/copa.go. -/
def patchedSuffix : String := "-patched"

/-- The `defaultVexFile` constant of internal/copa/copa.go and cli.go. -/
def defaultVexFile : String := "vex.json"

/-- The legacy `PatchParams` record (internal/types/types.go). -/
structure PatchParams where
  image : String
  tag : String
  push : Bool
  scan : Bool
  platform : List String
deriving Repr, DecidableEq

/-- `ReportBasedPatchParams` (internal/types/types.go). -/
structure ReportBasedPatchParams where
  image : String
  tag : String
  push : Bool
  reportPath : String
deriving Repr, DecidableEq

/-- `PlatformSelectivePatchParams` (internal/types/types.go). -/
structure PlatformSelectivePatchParams where
  image : String
  tag : String
  push : Bool
  platform : List String
deriving Repr, DecidableEq

/-- `ComprehensivePatchParams` (internal/types/types.go). -/
structure ComprehensivePatchParams where
  image : String
  tag : String
  push : Bool
deriving Repr, DecidableEq

/-- Model of go-containerregistry `name.ParseReference` followed by the
`name.Tag` projections used in copa.go (`TagStr()` and `RepositoryStr()`),
restricted to the reference shapes the tool's callers pass: digest-free
references without an explicit registry host, written `repo` or `repo:tag`.
For those, the library resolves the registry to the public default and
`RepositoryStr` prefixes single-component paths with the implicit
`library/` namespace; a missing tag defaults to `latest`. References
outside this shape (empty components, registry ports, digests) are not
modelled and map to `none` (the error return). Returns
`(repositoryStr, tagStr)`. -/
def parseReference (s : String) : Option (String × String) :=
  if GoStrings.containsChar s '@' then none
  else
    let repositoryStr := fun (repo : String) =>
      if GoStrings.containsChar repo '/' then repo else "library/" ++ repo
    match GoStrings.split s ':' with
    | [repo] => if repo = "" then none else some (repositoryStr repo, "latest")
    | [repo, tag] =>
      if repo = "" ∨ tag = "" ∨ GoStrings.containsChar tag '/' then none
      else some (repositoryStr repo, tag)
    | _ => none

/-- The observable outcome of the argument-construction phase of `Run`
(internal/copa/copa.go): the built argument list, the predicted output image
list, the VEX output path, and the final (possibly derived) tag value held
in `params.Tag` after the builder ran. -/
structure BuiltPatch where
  args : List String
  patchedImage : List String
  vexPath : String
  finalTag : String
deriving Repr, DecidableEq

namespace Legacy

/-- Embedding of the argument-construction phase of `Run`
(internal/copa/copa.go, lines 22-83): reference parsing and `library/`
stripping, report/output flags, the custom-tag versus derived-tag branch,
the `usePlatformSpecificTags` condition with its raw comma-joined
`--platform` value and per-platform predicted image names, and the `--push`
flag. `tmpDir` stands for `os.TempDir()`; `filepath.Join` is string
concatenation with `/`. `none` models the parse-failure error return. -/
def RunBuild (params : PatchParams) (reportPath : String) (tmpDir : String) :
    Option BuiltPatch :=
  match parseReference params.image with
  | none => none
  | some (repositoryStr, tag) =>
    let repository := GoStrings.trimPrefix repositoryStr "library/"
    let copaArgs := ["patch", "--image", params.image]
    let vexPath := if reportPath ≠ "" then tmpDir ++ "/" ++ defaultVexFile else ""
    let copaArgs :=
      if reportPath ≠ "" then copaArgs ++ ["--report", reportPath, "--output", vexPath]
      else copaArgs
    let customTagProvided : Bool := params.tag != ""
    let usePlatformSpecificTags : Bool :=
      !params.platform.isEmpty && (params.scan || !customTagProvided)
    let (copaArgs, patchedImage, tagFinal) :=
      if customTagProvided then
        (copaArgs ++ ["--tag", params.tag],
         if !usePlatformSpecificTags then [repository ++ ":" ++ params.tag] else [],
         params.tag)
      else
        (copaArgs, [], tag ++ patchedSuffix)
    let patchedImage :=
      if tagFinal = "" ∧ params.platform.length ≤ 0 then [repository ++ ":" ++ tagFinal]
      else patchedImage
    let (copaArgs, patchedImage) :=
      if usePlatformSpecificTags then
        (copaArgs ++ ["--platform", GoStrings.joinComma params.platform],
         params.platform.map (fun p =>
           repository ++ ":" ++ tagFinal ++ "-" ++ PlatformToArch p))
      else (copaArgs, patchedImage)
    let copaArgs := if params.push then copaArgs ++ ["--push"] else copaArgs
    some { args := copaArgs, patchedImage := patchedImage,
           vexPath := vexPath, finalTag := tagFinal }

/-- Embedding of `RunPlatformSelective` (internal/copa/copa.go): wraps the
params into legacy `PatchParams` with `Scan := false` and no report path. -/
def RunPlatformSelective (params : PlatformSelectivePatchParams) (tmpDir : String) :
    Option BuiltPatch :=
  RunBuild
    { image := params.image, tag := params.tag, push := params.push,
      scan := false, platform := params.platform } "" tmpDir

/-- Embedding of `RunComprehensive` (internal/copa/copa.go): wraps the params
into legacy `PatchParams` with `Scan := false`, empty platforms, no report. -/
def RunComprehensive (params : ComprehensivePatchParams) (tmpDir : String) :
    Option BuiltPatch :=
  RunBuild
    { image := params.image, tag := params.tag, push := params.push,
      scan := false, platform := [] } "" tmpDir

/-- Embedding of `RunReportBased` (internal/copa/copa.go): wraps the params
into legacy `PatchParams` with `Scan := true` and empty platforms. -/
def RunReportBased (params : ReportBasedPatchParams) (reportPath : String) (tmpDir : String) :
    Option BuiltPatch :=
  RunBuild
    { image := params.image, tag := params.tag, push := params.push,
      scan := true, platform := [] } reportPath tmpDir

end Legacy

/-- The fixed-status sentinel `vex.StatusFixed` of the openvex library. -/
def StatusFixed : String := "fixed"

/-- A product inside a VEX statement; only the subcomponent list is consumed
by the parser (`len(product.Subcomponents)`). -/
structure VexProduct where
  subcomponents : List String
deriving Repr, DecidableEq

/-- A VEX statement: a status string and the affected products. -/
structure VexStatement where
  status : String
  products : List VexProduct
deriving Repr, DecidableEq

/-- A parsed VEX document: its statement list. -/
structure VexDoc where
  statements : List VexStatement
deriving Repr, DecidableEq

/-- `ExecutionResult` (internal/copa/cli.go). `duration` is modelled as a
natural number of clock ticks; Go zero values are the field defaults. -/
structure ExecutionResult where
  exitCode : Int := 0
  output : String := ""
  error : String := ""
  duration : Nat := 0
  vexPath : String := ""
  updatedPackageCount : Nat := 0
  fixedVulnerabilityCount : Nat := 0
deriving Repr, DecidableEq

/-- The `CLI` struct (internal/copa/cli.go). `cmd` models `*exec.Cmd` by its
`Args` slice (program path first, as `exec.Command` stores it); `none` is the
nil command of an unbuilt CLI. -/
structure CLI where
  copaPath : String
  dryRun : Bool
  image : String
  tag : String
  platforms : List String
  push : Bool
  reportPath : String
  vexPath : String
  cmd : Option (List String)
deriving Repr, DecidableEq

/-- The three param shapes admitted by the Go generic constraint
`PatchParamsConstraint`; the Go type switch in `New` becomes a match. -/
inductive PatchParamsConstraint where
  | reportBased (p : ReportBasedPatchParams)
  | platformSelective (p : PlatformSelectivePatchParams)
  | comprehensive (p : ComprehensivePatchParams)
deriving Repr, DecidableEq

/-- Embedding of `New` (internal/copa/cli.go): extract the common fields per
param shape and fill the remaining CLI fields with their zero values. -/
def New (params : PatchParamsConstraint) (dryRun : Bool) : CLI :=
  let (image, tag, push, platforms, reportPath) :=
    match params with
    | .reportBased p => (p.image, p.tag, p.push, ([] : List String), p.reportPath)
    | .platformSelective p => (p.image, p.tag, p.push, p.platform, "")
    | .comprehensive p => (p.image, p.tag, p.push, ([] : List String), "")
  { copaPath := "copa", dryRun := dryRun, image := image, tag := tag,
    platforms := platforms, push := push, reportPath := reportPath,
    vexPath := "", cmd := none }

/-- Embedding of `(*CLI).Build` (internal/copa/cli.go): `patch`, the image
flag, then optionally `--tag` and `--push`; the command stores the program
path in front as `exec.Command` does. -/
def Build (c : CLI) : CLI :=
  let args := ["patch", "--image", c.image]
  let args := if c.tag ≠ "" then args ++ ["--tag", c.tag] else args
  let args := if c.push then args ++ ["--push"] else args
  { c with cmd := some (c.copaPath :: args) }

/-- Embedding of `(*CLI).BuildWithPlatforms` (internal/copa/cli.go): after
`Build`, append `--platform` with the comma-joined FILTERED supported
platforms, and only when the filtered list is non-empty. -/
def BuildWithPlatforms (c : CLI) : CLI :=
  let c := Build c
  if c.platforms.length > 0 then
    let supportedPlatforms := FilterSupportedPlatforms c.platforms
    if supportedPlatforms.length > 0 then
      { c with cmd := c.cmd.map (fun a =>
          a ++ ["--platform", GoStrings.joinComma supportedPlatforms]) }
    else c
  else c

/-- Embedding of `(*CLI).BuildWithReport` (internal/copa/cli.go): after
`Build`, when a report path is present append `--report` and `--output`
pointing at the temp VEX file and record that path in `vexPath`. -/
def BuildWithReport (c : CLI) (tmpDir : String) : CLI :=
  let c := Build c
  if c.reportPath ≠ "" then
    let vexPath := tmpDir ++ "/" ++ defaultVexFile
    { c with vexPath := vexPath,
             cmd := c.cmd.map (fun a => a ++ ["--report", c.reportPath, "--output", vexPath]) }
  else c

/-- Go `%v` rendering of a string slice, used in the validation message. -/
def goSliceFmt (l : List String) : String :=
  "[" ++ String.intercalate " " l ++ "]"

/-- Embedding of `(*CLI).validateCommand` (internal/copa/cli.go).
`pathExists` models `os.Stat`/`os.IsNotExist` on the report path. The
warning printed when the filtered platform list is a strict subset has no
observable return value and is not modelled. -/
def validateCommand (c : CLI) (pathExists : String → Bool) : Option String :=
  if c.cmd.isNone then some "no command built - call a Build method first"
  else if c.image = "" then some "image is required"
  else if c.platforms.length > 0 ∧ (FilterSupportedPlatforms c.platforms).length = 0 then
    some ("no supported platforms found in: " ++ goSliceFmt c.platforms)
  else if c.reportPath ≠ "" ∧ pathExists c.reportPath = false then
    some ("report path does not exist: " ++ c.reportPath)
  else none

/-- Embedding of `(*CLI).setupAuth` (internal/copa/cli.go): `authRemote` is
the outcome of `dockerAuth.SetupRegistryAuthFromEnv()`; on a remote-patch
result, when a command exists and `--push` is not already among its args,
flip `push` and append the flag. -/
def setupAuth (c : CLI) (authRemote : Except String Bool) : Except String CLI :=
  match authRemote with
  | .error e => .error ("failed to authenticate to registry: " ++ e)
  | .ok remotePatch =>
    if remotePatch && c.cmd.isSome && !((c.cmd.getD []).contains "--push") then
      .ok { c with push := true, cmd := c.cmd.map (fun a => a ++ ["--push"]) }
    else .ok c

/-- Outcome of one subprocess run, the oracle for `exec.Cmd.Run`: `success`
is a nil error return; on failure `exitCode` is the `ExitError` code. -/
structure ProcOutcome where
  success : Bool
  exitCode : Int
  stdout : String
  stderr : String

/-- Embedding of `(*CLI).execute` (internal/copa/cli.go). `elapsed` is the
wall-clock time observed between the two clock reads; `proc` runs
`c.cmd.Args[1:]` and yields the captured streams. Returns the result (Go
returns it even alongside an error), the error, and the list of subprocess
invocations actually performed — empty in dry-run mode, which returns the
zero result with only `duration` set. -/
def execute (c : CLI) (elapsed : Nat) (proc : List String → ProcOutcome) :
    Option ExecutionResult × Option String × List (List String) :=
  match c.cmd with
  | none => (none, some "no command built - call a Build method first", [])
  | some cmdArgs =>
    if c.dryRun then
      (some { duration := elapsed }, none, [])
    else
      let argv := cmdArgs.tail
      let o := proc argv
      let result : ExecutionResult :=
        { exitCode := if o.success then 0 else o.exitCode, output := o.stdout,
          error := o.stderr, duration := elapsed, vexPath := c.vexPath }
      if o.success then (some result, none, [argv])
      else (some result, some "command execution failed", [argv])

/-- Embedding of `(*CLI).parseVexDoc` (internal/copa/cli.go). The guard
tests the receiver's `vexPath` field (not the `path` argument). `fs` models
`os.ReadFile` combined with `json.Unmarshal`: `none` is a read or parse
failure. The counting loop increments the fixed count per fixed-status
statement and adds each of its products' subcomponent counts. -/
def parseVexDoc (c : CLI) (path : String) (fs : String → Option VexDoc) :
    Option (Nat × Nat) :=
  if c.vexPath = "" then some (0, 0)
  else
    match fs path with
    | none => none
    | some doc =>
      some (doc.statements.foldl
        (fun acc stmt =>
          if stmt.status = StatusFixed then
            (acc.1 + 1,
             stmt.products.foldl (fun n product => n + product.subcomponents.length) acc.2)
          else acc)
        (0, 0))

/-- Embedding of `(*CLI).Run` (internal/copa/cli.go): validate, set up auth,
execute, then parse the VEX document at `c.vexPath`, attaching the two
counts. Returns the result, the error, and the subprocess invocations
performed (empty whenever validation or auth failed). -/
def RunCLI (c : CLI) (pathExists : String → Bool) (authRemote : Except String Bool)
    (elapsed : Nat) (proc : List String → ProcOutcome) (fs : String → Option VexDoc) :
    Option ExecutionResult × Option String × List (List String) :=
  match validateCommand c pathExists with
  | some e => (none, some ("command validation failed: " ++ e), [])
  | none =>
    match setupAuth c authRemote with
    | .error e => (none, some ("authentication setup failed: " ++ e), [])
    | .ok c2 =>
      match execute c2 elapsed proc with
      | (r, some e, inv) => (r, some ("execution failed: " ++ e), inv)
      | (some r, none, inv) =>
        match parseVexDoc c2 c2.vexPath fs with
        | none => (some r, some "parsing vex doc failed", inv)
        | some (f, u) =>
          (some { r with fixedVulnerabilityCount := f, updatedPackageCount := u }, none, inv)
      | (none, none, inv) => (none, none, inv)

end Copa

namespace Trivy

/-- The base trivy argument list built by `Run` (internal/trivy, scan
orchestrator): OS vulnerabilities only, ignore unfixed, JSON format. -/
def trivyBaseArgs : List String :=
  ["image", "--vuln-type", "os", "--ignore-unfixed", "-f", "json"]

/-- The report file name chosen for platform `p`: slashes replaced by
hyphens, `.json` appended. -/
def platformReportFile (p : String) : String :=
  GoStrings.replaceSlashDash p ++ ".json"

/-- Embedding of the invocation construction of `Run` (internal/trivy): with
no platforms, a single invocation writing `report.json` into the report
directory; otherwise one invocation per platform, adding the remote
image-source flag, the platform flag, and the per-platform output file.
`reportPath` stands for the fresh temp directory `os.MkdirTemp` returned;
`filepath.Join` is string concatenation with `/`. -/
def runInvocations (image : String) (platform : List String) (reportPath : String) :
    List (List String) :=
  if platform.isEmpty then
    [trivyBaseArgs ++ ["-o", reportPath ++ "/" ++ "report.json"] ++ [image]]
  else
    platform.map (fun p =>
      trivyBaseArgs ++ ["--image-src", "remote"] ++ ["--platform", p] ++
        ["-o", reportPath ++ "/" ++ platformReportFile p] ++ [image])

/-- The report files produced by a successful scan: the `-o` target of each
invocation, in order. -/
def runReportFiles (image : String) (platform : List String) (reportPath : String) :
    List String :=
  if platform.isEmpty then [reportPath ++ "/" ++ "report.json"]
  else platform.map (fun p => reportPath ++ "/" ++ platformReportFile p)

end Trivy

example : Copa.IsPlatformSupported "linux/arm64/v8" = true := by decide

example : Copa.PlatformToArch "linux/arm/v7" = "arm-v7" := by decide

example : Copa.FilterSupportedPlatforms ["linux/amd64", "windows/amd64", "linux/arm64"] =
    ["linux/amd64", "linux/arm64"] := by decide

/-- Claim C7: every platform in the fixed 8-entry supported table is
accepted by `IsPlatformSupported`; the variant string `linux/arm64/v8` is
also accepted although absent from the table verbatim; and every other
string — in particular `windows/amd64`, `darwin/amd64` and the empty string
— is rejected: acceptance holds exactly for table members and the one
arm64/v8 variant. -/
theorem isPlatformSupported_table_and_arm64v8 :
    (∀ p : String,
      Copa.IsPlatformSupported p = true ↔
        (p ∈ Copa.CopaSupportedPlatforms ∨ p = "linux/arm64/v8")) ∧
    (∀ p ∈ Copa.CopaSupportedPlatforms, Copa.IsPlatformSupported p = true) ∧
    Copa.IsPlatformSupported "linux/arm64/v8" = true ∧
    Copa.IsPlatformSupported "windows/amd64" = false ∧
    Copa.IsPlatformSupported "darwin/amd64" = false ∧
    Copa.IsPlatformSupported "" = false := by
  have hmain : ∀ p : String,
      Copa.IsPlatformSupported p = true ↔
        (p ∈ Copa.CopaSupportedPlatforms ∨ p = "linux/arm64/v8") := by
    intro p
    simp +decide [Copa.IsPlatformSupported, Copa.CopaSupportedPlatforms,
      List.any_cons, List.any_nil]
    tauto
  refine ⟨hmain, ?_, by decide, by decide, by decide, by decide⟩
  intro p hp
  exact (hmain p).mpr (Or.inl hp)

/-- Helper: the inner product fold of `parseVexDoc` adds the total
subcomponent count of the statement's products to the accumulator. -/
theorem vexProductFold_eq (l : List Copa.VexProduct) (b : Nat) :
    l.foldl (fun n product => n + product.subcomponents.length) b =
      b + (l.map (fun p => p.subcomponents.length)).sum := by
  induction l generalizing b with
  | nil => simp
  | cons hd tl ih => simp [List.foldl_cons, ih, Nat.add_assoc]

/-- Helper: the statement fold of `parseVexDoc` counts fixed-status
statements and sums their products' subcomponent counts, starting from the
accumulator. -/
theorem vexStatementFold_eq (l : List Copa.VexStatement) (a b : Nat) :
    l.foldl
        (fun acc stmt =>
          if stmt.status = Copa.StatusFixed then
            (acc.1 + 1,
             stmt.products.foldl (fun n product => n + product.subcomponents.length) acc.2)
          else acc)
        (a, b) =
      (a + (l.filter (fun s => s.status == Copa.StatusFixed)).length,
       b + ((l.filter (fun s => s.status == Copa.StatusFixed)).map
              (fun s => (s.products.map (fun p => p.subcomponents.length)).sum)).sum) := by
  induction l generalizing a b with
  | nil => simp
  | cons hd tl ih =>
    by_cases h : hd.status = Copa.StatusFixed
    · simp only [List.foldl_cons]
      rw [if_pos h, vexProductFold_eq, ih]
      simp [List.filter_cons, h, Prod.ext_iff]
      omega
    · simp only [List.foldl_cons]
      rw [if_neg h, ih]
      simp [List.filter_cons, h]

/-- Claim C4: the VEX result parser returns, for a readable well-formed
document, the number of fixed-status statements and the sum over those
statements of the subcomponent counts of all their products; statements with
any other status contribute nothing; an empty VEX path short-circuits to
`(0, 0)` with no error; and the worked example — two fixed statements whose
single products carry 3 and 2 subcomponents, beside a non-fixed statement —
yields `(2, 5)`. -/
theorem parseVexDoc_counts :
    (∀ (c : Copa.CLI) (path : String) (fs : String → Option Copa.VexDoc),
        c.vexPath = "" → Copa.parseVexDoc c path fs = some (0, 0)) ∧
    (∀ (c : Copa.CLI) (path : String) (fs : String → Option Copa.VexDoc)
        (doc : Copa.VexDoc), c.vexPath ≠ "" → fs path = some doc →
        Copa.parseVexDoc c path fs =
          some ((doc.statements.filter (fun s => s.status == Copa.StatusFixed)).length,
                ((doc.statements.filter (fun s => s.status == Copa.StatusFixed)).map
                   (fun s => (s.products.map (fun p => p.subcomponents.length)).sum)).sum)) ∧
    Copa.parseVexDoc
        { copaPath := "copa", dryRun := false, image := "alpine:3.17", tag := "",
          platforms := [], push := false, reportPath := "/reports",
          vexPath := "/tmp/vex.json", cmd := none }
        "/tmp/vex.json"
        (fun path =>
          if path = "/tmp/vex.json" then
            some { statements :=
              [{ status := "fixed",
                 products := [{ subcomponents := ["pkg-a", "pkg-b", "pkg-c"] }] },
               { status := "not_affected",
                 products := [{ subcomponents := ["pkg-x", "pkg-y", "pkg-z"] }] },
               { status := "fixed",
                 products := [{ subcomponents := ["pkg-d", "pkg-e"] }] }] }
          else none) = some (2, 5) := by
  refine ⟨?_, ?_, by decide⟩
  · intro c path fs h
    simp [Copa.parseVexDoc, h]
  · intro c path fs doc h hfs
    simp only [Copa.parseVexDoc, h, hfs, if_false, ite_false, ite_eq_right_iff]
    have hh := vexStatementFold_eq doc.statements 0 0
    simp only [Nat.zero_add] at hh
    first
      | exact hh
      | (simp [h]; exact hh)

/-- Witness for claim C4: the counting conjunct applied at a concrete
document (one fixed statement with products of 2 and 1 subcomponents and
one ignored statement), evaluating to `(1, 3)`. -/
theorem parseVexDoc_counts_witness :
    Copa.parseVexDoc
        { copaPath := "copa", dryRun := false, image := "nginx:latest", tag := "",
          platforms := [], push := false, reportPath := "/r",
          vexPath := "/tmp/out.json", cmd := none }
        "/tmp/out.json"
        (fun _ =>
          some { statements :=
            [{ status := "fixed",
               products := [{ subcomponents := ["a", "b"] }, { subcomponents := ["c"] }] },
             { status := "affected", products := [{ subcomponents := ["d"] }] }] }) =
      some (1, 3) := by
  have h := parseVexDoc_counts.2.1
    { copaPath := "copa", dryRun := false, image := "nginx:latest", tag := "",
      platforms := [], push := false, reportPath := "/r",
      vexPath := "/tmp/out.json", cmd := none }
    "/tmp/out.json"
    (fun _ =>
      some { statements :=
        [{ status := "fixed",
           products := [{ subcomponents := ["a", "b"] }, { subcomponents := ["c"] }] },
         { status := "affected", products := [{ subcomponents := ["d"] }] }] })
    { statements :=
        [{ status := "fixed",
           products := [{ subcomponents := ["a", "b"] }, { subcomponents := ["c"] }] },
         { status := "affected", products := [{ subcomponents := ["d"] }] }] }
    (by decide) rfl
  exact h.trans (by decide)

/-- Claim C6: in dry-run mode, `execute` returns a result with exit code
zero, empty captured output, empty captured error text, and duration equal
to the (positive) measured clock advance, and performs no subprocess
invocation at all. -/
theorem execute_dryRun :
    ∀ (c : Copa.CLI) (args : List String) (elapsed : Nat)
      (proc : List String → Copa.ProcOutcome),
      c.dryRun = true → c.cmd = some args → 0 < elapsed →
      Copa.execute c elapsed proc =
        (some { exitCode := 0, output := "", error := "", duration := elapsed,
                vexPath := "", updatedPackageCount := 0, fixedVulnerabilityCount := 0 },
         none, []) ∧
      0 < ({ exitCode := 0, output := "", error := "", duration := elapsed,
             vexPath := "", updatedPackageCount := 0,
             fixedVulnerabilityCount := 0 } : Copa.ExecutionResult).duration := by
  intro c args elapsed proc hdry hcmd hpos
  refine ⟨?_, hpos⟩
  simp [Copa.execute, hcmd, hdry]

/-- Witness for claim C6: a concrete dry-run CLI with one clock tick. -/
theorem execute_dryRun_witness :
    Copa.execute
        { copaPath := "copa", dryRun := true, image := "alpine:3.17", tag := "",
          platforms := [], push := false, reportPath := "", vexPath := "",
          cmd := some ["copa", "patch", "--image", "alpine:3.17"] }
        1 (fun _ => { success := true, exitCode := 0, stdout := "", stderr := "" }) =
      (some { exitCode := 0, output := "", error := "", duration := 1,
              vexPath := "", updatedPackageCount := 0, fixedVulnerabilityCount := 0 },
       none, []) ∧
    0 < ({ exitCode := 0, output := "", error := "", duration := 1,
           vexPath := "", updatedPackageCount := 0,
           fixedVulnerabilityCount := 0 } : Copa.ExecutionResult).duration :=
  execute_dryRun
    { copaPath := "copa", dryRun := true, image := "alpine:3.17", tag := "",
      platforms := [], push := false, reportPath := "", vexPath := "",
      cmd := some ["copa", "patch", "--image", "alpine:3.17"] }
    ["copa", "patch", "--image", "alpine:3.17"] 1
    (fun _ => { success := true, exitCode := 0, stdout := "", stderr := "" })
    rfl rfl (by decide)

/-- Claim C5: `validateCommand` reports an error exactly when no command has
been built, the image is empty, a non-empty platform list filters down to
zero supported entries, or a non-empty report path does not exist on disk;
when a validation error occurs, `Run` returns it (wrapped) and no subprocess
invocation is ever attempted; and when the checks pass — in particular when
the filtered platform list is merely a non-empty subset of the supplied
list — validation succeeds. -/
theorem validateCommand_gate :
    (∀ (c : Copa.CLI) (pathExists : String → Bool),
        (Copa.validateCommand c pathExists).isSome = true ↔
          (c.cmd = none ∨ c.image = "" ∨
           (c.platforms ≠ [] ∧ Copa.FilterSupportedPlatforms c.platforms = []) ∨
           (c.reportPath ≠ "" ∧ pathExists c.reportPath = false))) ∧
    (∀ (c : Copa.CLI) (pathExists : String → Bool) (authRemote : Except String Bool)
        (elapsed : Nat) (proc : List String → Copa.ProcOutcome)
        (fs : String → Option Copa.VexDoc) (e : String),
        Copa.validateCommand c pathExists = some e →
        Copa.RunCLI c pathExists authRemote elapsed proc fs =
          (none, some ("command validation failed: " ++ e), [])) ∧
    (∀ (c : Copa.CLI) (pathExists : String → Bool),
        c.cmd ≠ none → c.image ≠ "" →
        (c.platforms ≠ [] → Copa.FilterSupportedPlatforms c.platforms ≠ []) →
        (c.reportPath ≠ "" → pathExists c.reportPath = true) →
        Copa.validateCommand c pathExists = none) := by
  refine ⟨?_, ?_, ?_⟩
  · intro c pe
    unfold Copa.validateCommand
    split_ifs with h1 h2 h3 h4 <;>
      simp_all [Option.isNone_iff_eq_none, List.length_pos, List.length_eq_zero]
  · intro c pe authRemote elapsed proc fs e h
    simp [Copa.RunCLI, h]
  · intro c pe h1 h2 h3 h4
    have n1 : ¬(c.cmd.isNone = true) := by
      simpa [Option.isNone_iff_eq_none] using h1
    have n3 : ¬(c.platforms.length > 0 ∧
        (Copa.FilterSupportedPlatforms c.platforms).length = 0) := by
      rintro ⟨p1, p2⟩
      have hne : c.platforms ≠ [] := by
        intro hemp
        rw [hemp] at p1
        simp at p1
      exact h3 hne (List.length_eq_zero.mp p2)
    have n4 : ¬(c.reportPath ≠ "" ∧ pe c.reportPath = false) := by
      rintro ⟨p1, p2⟩
      rw [h4 p1] at p2
      simp at p2
    unfold Copa.validateCommand
    rw [if_neg n1, if_neg h2, if_neg n3, if_neg n4]

/-- Witness for claim C5: a CLI that was never built fails validation with
the no-command error, and `Run` surfaces it without any invocation. -/
theorem validateCommand_gate_witness :
    Copa.RunCLI (Copa.New (.comprehensive
        { image := "alpine:3.17", tag := "", push := false }) true)
        (fun _ => true) (.ok false) 1
        (fun _ => { success := true, exitCode := 0, stdout := "", stderr := "" })
        (fun _ => none) =
      (none, some ("command validation failed: " ++
        "no command built - call a Build method first"), []) :=
  validateCommand_gate.2.1
    (Copa.New (.comprehensive { image := "alpine:3.17", tag := "", push := false }) true)
    (fun _ => true) (.ok false) 1
    (fun _ => { success := true, exitCode := 0, stdout := "", stderr := "" })
    (fun _ => none) "no command built - call a Build method first" rfl

/-- Helper: `Build` only sets the command; every other CLI field is kept. -/
theorem Build_fields (c : Copa.CLI) :
    (Copa.Build c).copaPath = c.copaPath ∧ (Copa.Build c).image = c.image ∧
    (Copa.Build c).tag = c.tag ∧ (Copa.Build c).platforms = c.platforms ∧
    (Copa.Build c).push = c.push ∧ (Copa.Build c).reportPath = c.reportPath ∧
    (Copa.Build c).vexPath = c.vexPath ∧ (Copa.Build c).dryRun = c.dryRun := by
  simp [Copa.Build]

/-- Helper: the command `Build` constructs starts with the program path, the
`patch` token, the image flag and the image. -/
theorem Build_cmd_prefix (c : Copa.CLI) :
    ∃ r, (Copa.Build c).cmd = some (c.copaPath :: "patch" :: "--image" :: c.image :: r) := by
  unfold Copa.Build
  split_ifs <;> exact ⟨_, rfl⟩

/-- Claim C9: a report-based request whose report path is the empty string
leaves `BuildWithReport` identical to a plain `Build` (no report or output
flags, `vexPath` left empty), passes validation (the report-path existence
check is skipped for empty paths), and the VEX-parsing step short-circuits
to `(0, 0)` with no error. -/
theorem buildWithReport_emptyPath_degrades :
    ∀ (p : Copa.ReportBasedPatchParams) (dryRun : Bool) (tmpDir : String),
      p.reportPath = "" →
      (Copa.BuildWithReport (Copa.New (.reportBased p) dryRun) tmpDir =
        Copa.Build (Copa.New (.reportBased p) dryRun)) ∧
      (∀ pathExists : String → Bool, p.image ≠ "" →
        Copa.validateCommand
          (Copa.BuildWithReport (Copa.New (.reportBased p) dryRun) tmpDir) pathExists =
          none) ∧
      (∀ (path : String) (fs : String → Option Copa.VexDoc),
        Copa.parseVexDoc
          (Copa.BuildWithReport (Copa.New (.reportBased p) dryRun) tmpDir) path fs =
          some (0, 0)) := by
  intro p dryRun tmpDir h
  have heq : Copa.BuildWithReport (Copa.New (.reportBased p) dryRun) tmpDir =
      Copa.Build (Copa.New (.reportBased p) dryRun) := by
    unfold Copa.BuildWithReport
    rw [if_neg]
    simp [Copa.New, Copa.Build, h]
  refine ⟨heq, ?_, ?_⟩
  · intro pathExists himg
    rw [heq]
    obtain ⟨rest, hcmd⟩ := Build_cmd_prefix (Copa.New (.reportBased p) dryRun)
    unfold Copa.validateCommand
    rw [if_neg, if_neg, if_neg, if_neg]
    · simp [Copa.Build, Copa.New, h]
    · simp [Copa.Build, Copa.New]
    · simpa [Copa.Build, Copa.New] using himg
    · simp [hcmd]
  · intro path fs
    rw [heq]
    unfold Copa.parseVexDoc
    rw [if_pos]
    simp [Copa.Build, Copa.New]

/-- Witness for claim C9: the concrete empty-report-path request — it
builds like a plain `Build`, passes validation under a filesystem where no
path exists, and VEX parsing yields `(0, 0)`. -/
theorem buildWithReport_emptyPath_degrades_witness :
    (Copa.BuildWithReport (Copa.New (.reportBased
        { image := "alpine:3.17", tag := "", push := false, reportPath := "" }) true) "/tmp" =
      Copa.Build (Copa.New (.reportBased
        { image := "alpine:3.17", tag := "", push := false, reportPath := "" }) true)) ∧
    Copa.validateCommand
      (Copa.BuildWithReport (Copa.New (.reportBased
        { image := "alpine:3.17", tag := "", push := false, reportPath := "" }) true) "/tmp")
      (fun _ => false) = none ∧
    Copa.parseVexDoc
      (Copa.BuildWithReport (Copa.New (.reportBased
        { image := "alpine:3.17", tag := "", push := false, reportPath := "" }) true) "/tmp")
      "/tmp/vex.json" (fun _ => none) = some (0, 0) :=
  ⟨(buildWithReport_emptyPath_degrades
      { image := "alpine:3.17", tag := "", push := false, reportPath := "" } true "/tmp"
      rfl).1,
   (buildWithReport_emptyPath_degrades
      { image := "alpine:3.17", tag := "", push := false, reportPath := "" } true "/tmp"
      rfl).2.1 (fun _ => false) (by decide),
   (buildWithReport_emptyPath_degrades
      { image := "alpine:3.17", tag := "", push := false, reportPath := "" } true "/tmp"
      rfl).2.2 "/tmp/vex.json" (fun _ => none)⟩

/-- Claim C10: for every request and every build method — the CLI builders
`Build`, `BuildWithPlatforms`, `BuildWithReport` and the legacy `Run`
builder — the constructed argument list begins with the token `patch`
immediately followed by `--image` and the request's image; every
mode-specific flag can only appear in the remainder after this three-token
prefix. -/
theorem args_start_patch_image :
    (∀ c : Copa.CLI,
        (((Copa.Build c).cmd.getD []).take 4) =
          [c.copaPath, "patch", "--image", c.image]) ∧
    (∀ c : Copa.CLI,
        (((Copa.BuildWithPlatforms c).cmd.getD []).take 4) =
          [c.copaPath, "patch", "--image", c.image]) ∧
    (∀ (c : Copa.CLI) (tmpDir : String),
        (((Copa.BuildWithReport c tmpDir).cmd.getD []).take 4) =
          [c.copaPath, "patch", "--image", c.image]) ∧
    (∀ (params : Copa.PatchParams) (reportPath tmpDir : String) (b : Copa.BuiltPatch),
        Copa.Legacy.RunBuild params reportPath tmpDir = some b →
        b.args.take 3 = ["patch", "--image", params.image]) := by
  refine ⟨?_, ?_, ?_, ?_⟩
  · intro c
    obtain ⟨r, hr⟩ := Build_cmd_prefix c
    rw [hr]
    rfl
  · intro c
    obtain ⟨r, hr⟩ := Build_cmd_prefix c
    simp only [Copa.BuildWithPlatforms]
    split_ifs with h1 h2 <;> rw [hr] <;> rfl
  · intro c tmpDir
    obtain ⟨r, hr⟩ := Build_cmd_prefix c
    simp only [Copa.BuildWithReport]
    split_ifs with h1 <;> rw [hr] <;> rfl
  · intro params reportPath tmpDir b h
    unfold Copa.Legacy.RunBuild at h
    cases hpr : Copa.parseReference params.image with
    | none => rw [hpr] at h; simp at h
    | some pr =>
      obtain ⟨repo, tag⟩ := pr
      rw [hpr] at h
      simp only [Option.some.injEq] at h
      subst h
      split_ifs <;> rfl

/-- Witness for claim C10: the legacy-builder conjunct applied to a request
exercising all mode flags at once (report, custom tag, platforms, push). -/
theorem args_start_patch_image_witness :
    ({ args := ["patch", "--image", "alpine:3.17", "--report", "/r", "--output",
         "/tmp/vex.json", "--tag", "v1", "--platform", "linux/amd64,linux/arm64",
         "--push"],
       patchedImage := ["alpine:v1-amd64", "alpine:v1-arm64"],
       vexPath := "/tmp/vex.json", finalTag := "v1" } : Copa.BuiltPatch).args.take 3 =
      ["patch", "--image", "alpine:3.17"] :=
  args_start_patch_image.2.2.2
    { image := "alpine:3.17", tag := "v1", push := true, scan := true,
      platform := ["linux/amd64", "linux/arm64"] } "/r" "/tmp"
    { args := ["patch", "--image", "alpine:3.17", "--report", "/r", "--output",
        "/tmp/vex.json", "--tag", "v1", "--platform", "linux/amd64,linux/arm64", "--push"],
      patchedImage := ["alpine:v1-amd64", "alpine:v1-arm64"],
      vexPath := "/tmp/vex.json", finalTag := "v1" }
    (by decide)

/-- Claim C8: the scan orchestrator performs exactly one scanner run for an
empty platform list, writing the single file `report.json` in the report
directory; for a non-empty platform list it performs one run per platform,
writing one file per platform named by replacing every slash with a hyphen
and appending `.json` — `linux/arm/v7` yields `linux-arm-v7.json` — and
every per-platform invocation carries the `--platform <p>` flag pair and the
`--image-src remote` flag pair. -/
theorem trivy_run_report_files :
    (∀ image reportPath : String,
        Trivy.runReportFiles image [] reportPath = [reportPath ++ "/" ++ "report.json"] ∧
        (Trivy.runInvocations image [] reportPath).length = 1) ∧
    (∀ (image reportPath : String) (platform : List String), platform ≠ [] →
        Trivy.runReportFiles image platform reportPath =
          platform.map (fun p =>
            reportPath ++ "/" ++ (GoStrings.replaceSlashDash p ++ ".json")) ∧
        (Trivy.runInvocations image platform reportPath).length = platform.length ∧
        (∀ p ∈ platform, ∃ inv ∈ Trivy.runInvocations image platform reportPath,
            List.IsInfix ["--platform", p] inv ∧
            List.IsInfix ["--image-src", "remote"] inv)) ∧
    Trivy.runReportFiles "alpine:3.17" ["linux/arm/v7"] "/reports" =
      ["/reports/linux-arm-v7.json"] := by
  refine ⟨?_, ?_, by decide⟩
  · intro image reportPath
    constructor
    · simp [Trivy.runReportFiles]
    · simp [Trivy.runInvocations]
  · intro image reportPath platform hne
    have hemp : platform.isEmpty = false := by
      cases platform
      · exact absurd rfl hne
      · rfl
    refine ⟨?_, ?_, ?_⟩
    · simp [Trivy.runReportFiles, hemp, Trivy.platformReportFile]
    · simp [Trivy.runInvocations, hemp]
    · intro p hp
      refine ⟨Trivy.trivyBaseArgs ++ ["--image-src", "remote"] ++ ["--platform", p] ++
        ["-o", reportPath ++ "/" ++ Trivy.platformReportFile p] ++ [image], ?_, ?_, ?_⟩
      · simp only [Trivy.runInvocations, hemp, Bool.false_eq_true, if_false, ite_false]
        simp only [List.mem_map]
        exact ⟨p, hp, rfl⟩
      · exact ⟨Trivy.trivyBaseArgs ++ ["--image-src", "remote"],
          ["-o", reportPath ++ "/" ++ Trivy.platformReportFile p] ++ [image], by simp⟩
      · exact ⟨Trivy.trivyBaseArgs,
          ["--platform", p] ++
            ["-o", reportPath ++ "/" ++ Trivy.platformReportFile p] ++ [image], by simp⟩

/-- Witness for claim C8: the per-platform conjunct at a concrete two-entry
platform list, with the file names evaluated. -/
theorem trivy_run_report_files_witness :
    Trivy.runReportFiles "alpine:3.17" ["linux/arm/v7", "linux/amd64"] "/reports" =
      ["/reports/linux-arm-v7.json", "/reports/linux-amd64.json"] := by
  have h := trivy_run_report_files.2.1 "alpine:3.17" "/reports"
    ["linux/arm/v7", "linux/amd64"] (by decide)
  exact h.1.trans (by decide)

/-- Claim C1, evaluated on the code: for the platform-selective request with
image `alpine:3.17`, tag `patched` and platforms `linux/amd64,linux/arm64`,
the builder (with `Scan=false` and a custom tag, `usePlatformSpecificTags`
is false) appends no platform flag and predicts the single image
`alpine:patched` — not the per-platform list the claim (and the builder's
own comment about always wanting platform-specific behavior for
platform-selective patching) describes. -/
theorem runPlatformSelective_customTag_eval :
    Copa.Legacy.RunPlatformSelective
        { image := "alpine:3.17", tag := "patched", push := false,
          platform := ["linux/amd64", "linux/arm64"] } "/tmp" =
      some { args := ["patch", "--image", "alpine:3.17", "--tag", "patched"],
             patchedImage := ["alpine:patched"], vexPath := "", finalTag := "patched" } ∧
    (Copa.Legacy.RunPlatformSelective
        { image := "alpine:3.17", tag := "patched", push := false,
          platform := ["linux/amd64", "linux/arm64"] } "/tmp").map
        Copa.BuiltPatch.patchedImage ≠
      some ["alpine:patched-amd64", "alpine:patched-arm64"] := by
  decide

/-- Claim C2, evaluated on the code: for the comprehensive request with
image `alpine:3.17`, no tag and no platforms, the builder derives the tag
`3.17-patched` and appends no `--tag` flag, but the guard that would set
the single predicted output tests `params.Tag == ""` immediately after the
tag was assigned a non-empty derived value, so it can never fire and the
predicted image list comes out empty — not the singleton
`alpine:3.17-patched` the claim describes. -/
theorem runComprehensive_noTag_eval :
    Copa.Legacy.RunComprehensive
        { image := "alpine:3.17", tag := "", push := false } "/tmp" =
      some { args := ["patch", "--image", "alpine:3.17"], patchedImage := [],
             vexPath := "", finalTag := "3.17-patched" } ∧
    (Copa.Legacy.RunComprehensive
        { image := "alpine:3.17", tag := "", push := false } "/tmp").map
        Copa.BuiltPatch.patchedImage ≠
      some ["alpine:3.17-patched"] := by
  decide

/-- Counterexample to claim C3: the CLI builder `BuildWithPlatforms`, on a
request where the platform-specific-tagging condition holds (platforms
requested, no custom tag), filters the platform list DURING argument
construction — the built command carries `--platform linux/amd64`, and the
raw comma-joined requested list `linux/amd64,windows/amd64` appears nowhere
in the argument list. -/
theorem buildWithPlatforms_filters_counterexample :
    (Copa.BuildWithPlatforms (Copa.New (.platformSelective
        { image := "alpine:3.17", tag := "", push := false,
          platform := ["linux/amd64", "windows/amd64"] }) false)).cmd =
      some ["copa", "patch", "--image", "alpine:3.17", "--platform", "linux/amd64"] ∧
    ("linux/amd64,windows/amd64" ∈
        ["copa", "patch", "--image", "alpine:3.17", "--platform", "linux/amd64"]) = False ∧
    ¬ List.IsInfix ["--platform", "linux/amd64,windows/amd64"]
        ["copa", "patch", "--image", "alpine:3.17", "--platform", "linux/amd64"] := by
  refine ⟨by decide, by simp, by decide⟩

/-- Helper: `Build` preserves the `platforms` field. -/
theorem Build_platforms_eq (c : Copa.CLI) : (Copa.Build c).platforms = c.platforms := by
  simp [Copa.Build]

/-- Claim C3 as amended: in the legacy builder (`Run`, copa.go), whenever
the platform-specific-tagging condition holds the argument list carries the
platform flag with the raw comma-joined requested list, unfiltered; in the
CLI builder (`BuildWithPlatforms`, cli.go), however, the list is filtered to
supported platforms during argument construction — the flag carries the
filtered comma-joined list and is omitted entirely when no requested
platform is supported; validation refilters independently in either case. -/
theorem platform_flag_raw_vs_filtered :
    (∀ (params : Copa.PatchParams) (reportPath tmpDir : String) (b : Copa.BuiltPatch),
        Copa.Legacy.RunBuild params reportPath tmpDir = some b →
        (!params.platform.isEmpty && (params.scan || !(params.tag != ""))) = true →
        List.IsInfix ["--platform", GoStrings.joinComma params.platform] b.args) ∧
    (∀ c : Copa.CLI, c.platforms ≠ [] →
        Copa.FilterSupportedPlatforms c.platforms ≠ [] →
        (Copa.BuildWithPlatforms c).cmd = (Copa.Build c).cmd.map
          (fun a => a ++
            ["--platform", GoStrings.joinComma (Copa.FilterSupportedPlatforms c.platforms)])) ∧
    (∀ c : Copa.CLI, Copa.FilterSupportedPlatforms c.platforms = [] →
        Copa.BuildWithPlatforms c = Copa.Build c) := by
  refine ⟨?_, ?_, ?_⟩
  · intro params reportPath tmpDir b h hcond
    unfold Copa.Legacy.RunBuild at h
    cases hpr : Copa.parseReference params.image with
    | none => rw [hpr] at h; simp at h
    | some pr =>
      obtain ⟨repo, tag⟩ := pr
      rw [hpr] at h
      simp only [hcond, Option.some.injEq] at h
      subst h
      split_ifs <;>
        first
          | simpa using List.infix_append
              ["patch", "--image", params.image, "--report", reportPath, "--output",
                tmpDir ++ "/" ++ Copa.defaultVexFile, "--tag", params.tag]
              ["--platform", GoStrings.joinComma params.platform] ["--push"]
          | simpa using List.infix_append
              ["patch", "--image", params.image, "--report", reportPath, "--output",
                tmpDir ++ "/" ++ Copa.defaultVexFile, "--tag", params.tag]
              ["--platform", GoStrings.joinComma params.platform] []
          | simpa using List.infix_append
              ["patch", "--image", params.image, "--report", reportPath, "--output",
                tmpDir ++ "/" ++ Copa.defaultVexFile]
              ["--platform", GoStrings.joinComma params.platform] ["--push"]
          | simpa using List.infix_append
              ["patch", "--image", params.image, "--report", reportPath, "--output",
                tmpDir ++ "/" ++ Copa.defaultVexFile]
              ["--platform", GoStrings.joinComma params.platform] []
          | simpa using List.infix_append
              ["patch", "--image", params.image, "--tag", params.tag]
              ["--platform", GoStrings.joinComma params.platform] ["--push"]
          | simpa using List.infix_append
              ["patch", "--image", params.image, "--tag", params.tag]
              ["--platform", GoStrings.joinComma params.platform] []
          | simpa using List.infix_append
              ["patch", "--image", params.image]
              ["--platform", GoStrings.joinComma params.platform] ["--push"]
          | simpa using List.infix_append
              ["patch", "--image", params.image]
              ["--platform", GoStrings.joinComma params.platform] []
  · intro c h1 h2
    have hb := Build_platforms_eq c
    have hp1 : 0 < c.platforms.length := List.length_pos.mpr h1
    have hp2 : 0 < (Copa.FilterSupportedPlatforms c.platforms).length :=
      List.length_pos.mpr h2
    simp [Copa.BuildWithPlatforms, hb, hp1, hp2]
  · intro c h
    have hb := Build_platforms_eq c
    simp [Copa.BuildWithPlatforms, hb, h]

/-- Witness for the amended claim C3: the legacy conjunct applied to a
platform-selective request with no custom tag; the raw unfiltered
comma-joined list is an infix of the built arguments. -/
theorem platform_flag_raw_vs_filtered_witness :
    List.IsInfix ["--platform", "linux/amd64,linux/arm64"]
      ({ args := ["patch", "--image", "alpine:3.17", "--platform",
           "linux/amd64,linux/arm64"],
         patchedImage := ["alpine:3.17-patched-amd64", "alpine:3.17-patched-arm64"],
         vexPath := "", finalTag := "3.17-patched" } : Copa.BuiltPatch).args := by
  have h := platform_flag_raw_vs_filtered.1
    { image := "alpine:3.17", tag := "", push := false, scan := false,
      platform := ["linux/amd64", "linux/arm64"] } "" "/tmp"
    { args := ["patch", "--image", "alpine:3.17", "--platform",
        "linux/amd64,linux/arm64"],
      patchedImage := ["alpine:3.17-patched-amd64", "alpine:3.17-patched-arm64"],
      vexPath := "", finalTag := "3.17-patched" }
    (by decide) (by decide)
  have e : GoStrings.joinComma ["linux/amd64", "linux/arm64"] =
      "linux/amd64,linux/arm64" := by decide
  rw [e] at h
  exact h

/-- Witness for claim C7: the table-membership conjunct applied at the
concrete table entry `linux/ppc64le`. -/
theorem isPlatformSupported_table_witness :
    Copa.IsPlatformSupported "linux/ppc64le" = true :=
  isPlatformSupported_table_and_arm64v8.2.1 "linux/ppc64le" (by decide)
